import Mathlib

set_option maxRecDepth 100000

/-
Verification of the anchor-based structural patcher in update_contracts.py.
The document is modelled as a List Char; Python string primitives (find with
negative-start semantics, slices) are modelled exactly; the three update
steps and the final write-back are modelled as a pure function returning
Except String (List Char), where an error is a crash before the write.
-/

namespace UpdateContracts

/-- Occurrence test: does pat occur in s at position i. -/
def matchesAt (s pat : List Char) (i : Nat) : Bool :=
  decide ((s.drop i).take pat.length = pat)

/-- Worker for pyFind: try positions i, i+1, ... while fuel lasts. -/
def findAux (s pat : List Char) : Nat → Nat → Int
  | 0, _ => -1
  | fuel+1, i => if matchesAt s pat i then (i : Int) else findAux s pat fuel (i+1)

/-- Python str.find(pat, start): lowest index at or after start where pat
occurs, else -1; a negative start counts from the end, clamped at 0. -/
def pyFind (s pat : List Char) (start : Int) : Int :=
  let st := if start < 0 then ((s.length : Int) + start).toNat else start.toNat
  findAux s pat (s.length + 1 - st) st

/-- Normalize a Python slice index to a Nat offset. -/
def pyClamp (len : Nat) (k : Int) : Nat :=
  if k < 0 then ((len : Int) + k).toNat else k.toNat

/-- Python slice s[:k]. -/
def pySliceTo (s : List Char) (k : Int) : List Char := s.take (pyClamp s.length k)

/-- Python slice s[k:]. -/
def pySliceFrom (s : List Char) (k : Int) : List Char := s.drop (pyClamp s.length k)

/-- Python s[i] with negative-index wraparound; out of range gives a space
(unreachable in the modelled loops). -/
def pyCharAt (s : List Char) (i : Int) : Char :=
  if i < 0 then s.getD ((s.length : Int) + i).toNat ' ' else s.getD i.toNat ' '

/-- Worker producing the index list a, a+1, ... of a given length. -/
def intRangeAux (a : Int) : Nat → List Int
  | 0 => []
  | n+1 => a :: intRangeAux (a+1) n

/-- Python range(a, b) as a list of Int indices. -/
def intRange (a : Int) (b : Nat) : List Int := intRangeAux a (((b : Int) - a).toNat)

/-- Worker for the abi bracket scan. -/
def bracketScanAux (s : List Char) : Int → List Int → Int
  | _, [] => -1
  | count, i :: rest =>
    if pyCharAt s i = '[' then bracketScanAux s (count + 1) rest
    else if pyCharAt s i = ']' then
      if count - 1 = 0 then i + 1 else bracketScanAux s (count - 1) rest
    else bracketScanAux s count rest

/-- The abi bracket scan of update_contracts.py (lines 42-50 and 67-75):
depth counter from 0, incremented on every open bracket, decremented on
every close, stopping one past the close that returns the depth to zero;
-1 when the buffer is exhausted first. -/
def bracketScan (s : List Char) (start : Int) : Int :=
  bracketScanAux s 0 (intRange start s.length)

/-- Worker for the end-of-entry brace scan. -/
def braceScanAux (s : List Char) : Int → List Int → Int
  | _, [] => -1
  | count, i :: rest =>
    if pyCharAt s i = '\x7b' then braceScanAux s (count + 1) rest
    else if pyCharAt s i = '\x7d' then
      if count = 0 then i + 1 else braceScanAux s (count - 1) rest
    else braceScanAux s count rest

/-- The end-of-entry brace scan of the insert path (lines 107-115): starts
just past the opening brace of the anchor, increments on an open brace,
and on a close brace stops one past it when the counter is zero, else
decrements. -/
def braceScan (s : List Char) (start : Int) : Int :=
  braceScanAux s 0 (intRange start s.length)

def AGENT_NFA_ADDRESS : List Char := "0xb65ca34b1526c926c75129ef934c3ba9fe6f29f6".toList

def LISTING_MANAGER_ADDRESS : List Char := "0x71597c159007E9FF35bcF47822913cA78B182156".toList

def POLICY_GUARD_ADDRESS : List Char := "0xf087B0e4e829109603533FA3c81BAe101e46934b".toList

def addrMarker : List Char := "address:".toList

def abiMarker : List Char := "abi:".toList

def agentMarker : List Char := "AgentNFA: \x7b".toList

def listingMarker : List Char := "ListingManager: \x7b".toList

def policyMarker : List Char := "PolicyGuard: \x7b".toList

/-- Address replacement (lines 31-35, 58-62, 85-89): find "address:" from
start_idx, then the next quote, then the quote after it, and splice the new
address strictly between the two quotes. -/
def addressReplace (addrNew content : List Char) (start_idx : Int) : List Char :=
  let addr_start := pyFind content addrMarker start_idx
  let quote_start := pyFind content ['\"'] addr_start
  let quote_end := pyFind content ['\"'] (quote_start + 1)
  pySliceTo content (quote_start + 1) ++ addrNew ++ pySliceFrom content quote_end

/-- Abi replacement (lines 38-52, 64-77): refind the entry anchor from the
top of the buffer, find "abi:" from there, then the next open bracket, scan
to its matching close, and splice; silently skipped when the scan fails. -/
def abiReplace (marker abiNew content : List Char) : List Char :=
  let start_idx := pyFind content marker 0
  let abi_start := pyFind content abiMarker start_idx
  let bracket_start := pyFind content ['['] abi_start
  let abi_end := bracketScan content bracket_start
  if abi_end = -1 then content
  else pySliceTo content bracket_start ++ abiNew ++ pySliceFrom content abi_end

/-- Step 1 of update_contracts (lines 28-52); the Bool records whether the
local variable abi_marker got assigned (it is assigned only inside the
found branch, at line 39). -/
def step_AgentNFA (agent_nfa_abi content : List Char) : List Char × Bool :=
  let start_idx := pyFind content agentMarker 0
  if start_idx = -1 then (content, false)
  else (abiReplace agentMarker agent_nfa_abi (addressReplace AGENT_NFA_ADDRESS content start_idx), true)

/-- Step 2 (lines 54-77): line 65 reads abi_marker, which is assigned only
inside step 1's found branch; when it is unassigned and the ListingManager
anchor is found, the run dies with a NameError before writing anything. -/
def step_ListingManager (listing_manager_abi : List Char) (abi_marker_set : Bool)
    (content : List Char) : Except String (List Char) :=
  let start_idx := pyFind content listingMarker 0
  if start_idx = -1 then .ok content
  else if abi_marker_set then
    .ok (abiReplace listingMarker listing_manager_abi
          (addressReplace LISTING_MANAGER_ADDRESS content start_idx))
  else .error "NameError: name abi_marker is not defined"

/-- The synthesized PolicyGuard block (lines 120-125). -/
def policyGuardStr (policy_guard_abi : List Char) : List Char :=
  ",\n  PolicyGuard: \x7b\n    address: \"".toList ++ POLICY_GUARD_ADDRESS
    ++ "\" as Address,\n    abi: ".toList ++ policy_guard_abi ++ " as const,\n  \x7d,\n".toList

/-- Insert path (lines 104-126): find ListingManager, brace-scan from just
past its opening anchor, splice the synthesized block right after the scan
result; silently skipped when either search fails. -/
def insertPolicyGuard (policy_guard_abi content : List Char) : List Char :=
  let lm_idx := pyFind content listingMarker 0
  if lm_idx = -1 then content
  else
    let lm_end := braceScan content (lm_idx + (listingMarker.length : Int))
    if lm_end = -1 then content
    else pySliceTo content lm_end ++ policyGuardStr policy_guard_abi ++ pySliceFrom content lm_end

/-- Step 3 (lines 80-126): update the PolicyGuard address in place when the
anchor exists (the abi block is not touched on this path), otherwise splice
a new block after the ListingManager entry. -/
def step_PolicyGuard (policy_guard_abi content : List Char) : List Char :=
  let start_idx := pyFind content policyMarker 0
  if start_idx = -1 then insertPolicyGuard policy_guard_abi content
  else addressReplace POLICY_GUARD_ADDRESS content start_idx

/-- The whole update_contracts run on an in-memory document (file I/O
stripped): the three abi arguments are the serialized ABI payload strings
the script loads from disk. The returned value is the buffer the script
writes back; an error is a crash before the write. -/
def update_contracts (agent_nfa_abi listing_manager_abi policy_guard_abi content : List Char) :
    Except String (List Char) :=
  let r1 := step_AgentNFA agent_nfa_abi content
  match step_ListingManager listing_manager_abi r1.2 r1.1 with
  | .error e => .error e
  | .ok c2 => .ok (step_PolicyGuard policy_guard_abi c2)

/-- Net delimiter depth contribution of a character list. -/
def depthDelta (openC closeC : Char) : List Char → Int
  | [] => 0
  | c :: rest => (if c = openC then 1 else if c = closeC then -1 else 0) + depthDelta openC closeC rest

/-- A bracket-delimited payload body is balanced: net depth zero and no
prefix closes more than it opens. -/
def bracketBalanced (body : List Char) : Prop :=
  depthDelta '[' ']' body = 0 ∧ ∀ k, k < body.length → 0 ≤ depthDelta '[' ']' (body.take (k + 1))

/-- The interior of a brace-delimited entry is balanced. -/
def braceBalanced (body : List Char) : Prop :=
  depthDelta '\x7b' '\x7d' body = 0 ∧ ∀ k, k < body.length → 0 ≤ depthDelta '\x7b' '\x7d' (body.take (k + 1))

instance : DecidablePred bracketBalanced := fun body => by
  unfold bracketBalanced; infer_instance

instance : DecidablePred braceBalanced := fun body => by
  unfold braceBalanced; infer_instance

/-- No occurrence of pat in s at any position in [lo, hi). -/
def noOccIn (s pat : List Char) (lo hi : Nat) : Bool :=
  (List.range (hi - lo)).all (fun d => ! matchesAt s pat (lo + d))

/-- Index-free restatement of the bracket scan loop, walking the suffix of
the buffer directly. -/
def natBracketScan : Nat → Int → List Char → Int
  | _, _, [] => -1
  | j, count, c :: rest =>
    if c = '[' then natBracketScan (j+1) (count+1) rest
    else if c = ']' then
      if count - 1 = 0 then (j : Int) + 1 else natBracketScan (j+1) (count-1) rest
    else natBracketScan (j+1) count rest

/-- Index-free restatement of the brace scan loop. -/
def natBraceScan : Nat → Int → List Char → Int
  | _, _, [] => -1
  | j, count, c :: rest =>
    if c = '\x7b' then natBraceScan (j+1) (count+1) rest
    else if c = '\x7d' then
      if count = 0 then (j : Int) + 1 else natBraceScan (j+1) (count-1) rest
    else natBraceScan (j+1) count rest

/-- The canonical shape of the region around one address field: a prefix P
(ending inside the entry), the "address:" anchor, filler m2, and the quoted
address value followed by the rest R. -/
def addrDoc (P m2 addr R : List Char) : List Char :=
  P ++ (addrMarker ++ (m2 ++ ('\"' :: (addr ++ '\"' :: R))))

/-- Well-behavedness of the address replacement on addrDoc P m2 addr R when
the search starts at st: the anchor first occurs at P.length and the two
quotes found are the field's quotes. -/
def addrOK (P m2 addr R : List Char) (st : Nat) : Prop :=
  st ≤ P.length ∧
  noOccIn (addrDoc P m2 addr R) addrMarker st P.length = true ∧
  noOccIn (addrDoc P m2 addr R) ['\"'] P.length
    (P.length + addrMarker.length + m2.length) = true ∧
  noOccIn (addrDoc P m2 addr R) ['\"'] (P.length + addrMarker.length + m2.length + 1)
    (P.length + addrMarker.length + m2.length + 1 + addr.length) = true

instance (P m2 addr R : List Char) (st : Nat) : Decidable (addrOK P m2 addr R st) := by
  unfold addrOK; infer_instance

/-- The canonical shape of a full entry as the abi replacement sees it:
prefix Q, the entry anchor, middle M (covering the already-updated address
field), the "abi:" anchor, filler m4, and the bracketed payload body
followed by the rest R. -/
def abiDoc (Q marker M m4 body R : List Char) : List Char :=
  Q ++ (marker ++ (M ++ (abiMarker ++ (m4 ++ ('[' :: (body ++ ']' :: R))))))

/-- Well-behavedness of the abi replacement on abiDoc Q marker M m4 body R:
the refound anchor is at Q.length, the "abi:" anchor and the bracket found
are the entry's own, and the payload body is bracket-balanced. -/
def abiOK (Q marker M m4 body R : List Char) : Prop :=
  marker ≠ [] ∧
  noOccIn (abiDoc Q marker M m4 body R) marker 0 Q.length = true ∧
  noOccIn (abiDoc Q marker M m4 body R) abiMarker Q.length
    (Q.length + marker.length + M.length) = true ∧
  noOccIn (abiDoc Q marker M m4 body R) ['['] (Q.length + marker.length + M.length)
    (Q.length + marker.length + M.length + abiMarker.length + m4.length) = true ∧
  bracketBalanced body

instance (Q marker M m4 body R : List Char) : Decidable (abiOK Q marker M m4 body R) := by
  unfold abiOK; infer_instance

/-- A full well-formed entry embedded in the document: anchor, address
field, abi field with a bracketed body, surrounded by filler text. -/
def entryDoc (pre marker m1 m2 addr m3 m4 body post : List Char) : List Char :=
  pre ++ (marker ++ (m1 ++ (addrMarker ++ (m2 ++ ('\"' :: (addr ++ ('\"' :: (m3 ++
    (abiMarker ++ (m4 ++ ('[' :: (body ++ ']' :: post))))))))))))

/-- The same entry after the found-path update: new address between the
quotes, the bracket block replaced by the new payload, all else unchanged. -/
def entryFinal (pre marker m1 m2 addrNew m3 m4 abiNew post : List Char) : List Char :=
  pre ++ (marker ++ (m1 ++ (addrMarker ++ (m2 ++ ('\"' :: (addrNew ++ ('\"' :: (m3 ++
    (abiMarker ++ (m4 ++ (abiNew ++ post)))))))))))

/-- Well-behavedness of the whole found-path update on an entryDoc. -/
def entryOK (marker addrNew pre m1 m2 addr m3 m4 body post : List Char) : Prop :=
  marker ≠ [] ∧
  noOccIn (entryDoc pre marker m1 m2 addr m3 m4 body post) marker 0 pre.length = true ∧
  addrOK (pre ++ (marker ++ m1)) m2 addr
    (m3 ++ (abiMarker ++ (m4 ++ ('[' :: (body ++ ']' :: post))))) pre.length ∧
  abiOK pre marker (m1 ++ (addrMarker ++ (m2 ++ ('\"' :: (addrNew ++ ('\"' :: m3))))))
    m4 body post

instance (marker addrNew pre m1 m2 addr m3 m4 body post : List Char) :
    Decidable (entryOK marker addrNew pre m1 m2 addr m3 m4 body post) := by
  unfold entryOK; infer_instance

/-- The canonical shape of a document whose PolicyGuard entry exists: the
entry anchor, an address field, and arbitrary text around them. -/
def pgDoc (pre m1 m2 addr post : List Char) : List Char :=
  pre ++ (policyMarker ++ (m1 ++ (addrMarker ++ (m2 ++ ('\"' :: (addr ++ '\"' :: post))))))

/-- Well-behavedness of step 3's found path on a pgDoc. -/
def pgOK (pre m1 m2 addr post : List Char) : Prop :=
  noOccIn (pgDoc pre m1 m2 addr post) policyMarker 0 pre.length = true ∧
  addrOK (pre ++ (policyMarker ++ m1)) m2 addr post pre.length

instance (pre m1 m2 addr post : List Char) : Decidable (pgOK pre m1 m2 addr post) := by
  unfold pgOK; infer_instance

/-- The canonical shape of a document around its ListingManager entry: the
anchor, a brace-balanced interior, the closing brace, and the rest. -/
def lmDoc (pre body post : List Char) : List Char :=
  pre ++ (listingMarker ++ (body ++ '\x7d' :: post))

/-- Well-behavedness of the insert path on an lmDoc. -/
def insertOK (pre body post : List Char) : Prop :=
  noOccIn (lmDoc pre body post) listingMarker 0 pre.length = true ∧
  braceBalanced body

instance (pre body post : List Char) : Decidable (insertOK pre body post) := by
  unfold insertOK; infer_instance

/-- Spec-variant of the abi replacement, per section 4.2 step 3 of the
spec: the payload-anchor search proceeds from a caller-supplied original
entry-start offset instead of refinding the anchor after the address
edit. Kept for comparison with the source's abiReplace. -/
def abiReplaceOrigStart (abiNew content : List Char) (origStart : Int) : List Char :=
  let abi_start := pyFind content abiMarker origStart
  let bracket_start := pyFind content ['['] abi_start
  let abi_end := bracketScan content bracket_start
  if abi_end = -1 then content
  else pySliceTo content bracket_start ++ abiNew ++ pySliceFrom content abi_end

/-- C2 witness data: the buffer after pass 1 over the PolicyGuard tail. -/
def c2wPostB0 : List Char := " \x7d,\n  ".toList ++ (policyMarker ++ (" ".toList ++ (addrMarker ++
  (" ".toList ++ ('\"' :: ("0xC".toList ++ '\"' :: " \x7d \x7d;".toList))))))

/-- C2 witness data: the original document's tail after the AgentNFA body. -/
def c2wPostA : List Char := " \x7d,\n  ".toList ++ (listingMarker ++ (" ".toList ++ (addrMarker ++
  (" ".toList ++ ('\"' :: ("0xB".toList ++ ('\"' :: (", ".toList ++ (abiMarker ++ (" ".toList ++
  ('[' :: ("2".toList ++ ']' :: c2wPostB0))))))))))))

/-- C2 witness data: the updated buffer up to the ListingManager anchor. -/
def c2wPreB : List Char := "C = \x7b ".toList ++ (agentMarker ++ (" ".toList ++ (addrMarker ++
  (" ".toList ++ ('\"' :: (AGENT_NFA_ADDRESS ++ ('\"' :: (", ".toList ++ (abiMarker ++ (" ".toList ++
  ("[3]".toList ++ " \x7d,\n  ".toList)))))))))))

/-- C2 witness data: the updated buffer up to the PolicyGuard anchor. -/
def c2wPreC : List Char := c2wPreB ++ (listingMarker ++ (" ".toList ++ (addrMarker ++ (" ".toList ++
  ('\"' :: (LISTING_MANAGER_ADDRESS ++ ('\"' :: (", ".toList ++ (abiMarker ++ (" ".toList ++
  ("[4]".toList ++ " \x7d,\n  ".toList)))))))))))

/-- C2 witness data: the fully updated PolicyGuard tail. -/
def c2wPostB2 : List Char := " \x7d,\n  ".toList ++ (policyMarker ++ (" ".toList ++ (addrMarker ++
  (" ".toList ++ ('\"' :: (POLICY_GUARD_ADDRESS ++ '\"' :: " \x7d \x7d;".toList))))))

/-- C2 witness data: the fully updated tail after the AgentNFA body. -/
def c2wPostA2 : List Char := " \x7d,\n  ".toList ++ (listingMarker ++ (" ".toList ++ (addrMarker ++
  (" ".toList ++ ('\"' :: (LISTING_MANAGER_ADDRESS ++ ('\"' :: (", ".toList ++ (abiMarker ++
  (" ".toList ++ ("[4]".toList ++ c2wPostB2)))))))))))

/-- C2 witness data: a registry document with all three entries. -/
def c2wDoc : List Char := entryDoc "C = \x7b ".toList agentMarker " ".toList " ".toList
  "0xA".toList ", ".toList " ".toList "1".toList c2wPostA

lemma matchesAt_iff {s pat : List Char} {i : Nat} :
    matchesAt s pat i = true ↔ (s.drop i).take pat.length = pat := by
  simp [matchesAt]

lemma matchesAt_of_append {a pat b : List Char} :
    matchesAt (a ++ (pat ++ b)) pat a.length = true := by
  rw [matchesAt_iff, List.drop_left, List.take_left]

lemma findAux_spec {s pat : List Char} {k : Nat} (hm : matchesAt s pat k = true) :
    ∀ fuel st, st ≤ k → k < st + fuel →
      (∀ j, st ≤ j → j < k → matchesAt s pat j = false) →
      findAux s pat fuel st = (k : Int) := by
  intro fuel
  induction fuel with
  | zero => intro st h1 h2 _; omega
  | succ n ih =>
    intro st h1 h2 hno
    by_cases hc : st = k
    · subst hc; simp [findAux, hm]
    · have hfalse : matchesAt s pat st = false := hno st le_rfl (by omega)
      simp only [findAux, hfalse, Bool.false_eq_true, if_false]
      exact ih (st+1) (by omega) (by omega) (fun j hj1 hj2 => hno j (by omega) hj2)

lemma pyFind_natCast (s pat : List Char) (n : Nat) :
    pyFind s pat (n : Int) = findAux s pat (s.length + 1 - n) n := by
  unfold pyFind
  rw [if_neg (by omega), Int.toNat_natCast]

lemma lt_length_of_matchesAt {s pat : List Char} {k : Nat} (hpat : pat ≠ [])
    (hm : matchesAt s pat k = true) : k < s.length := by
  rw [matchesAt_iff] at hm
  have h1 : ((s.drop k).take pat.length).length = pat.length := by rw [hm]
  rw [List.length_take, List.length_drop] at h1
  have h2 : pat.length ≤ s.length - k := by
    conv_lhs => rw [← h1]
    exact inf_le_right
  have h3 : 0 < pat.length := List.length_pos.mpr hpat
  omega

lemma pyFind_at {s pat : List Char} {st k : Nat} (hpat : pat ≠ [])
    (hst : st ≤ k) (hm : matchesAt s pat k = true)
    (hno : ∀ j, st ≤ j → j < k → matchesAt s pat j = false) :
    pyFind s pat (st : Int) = (k : Int) := by
  have hk : k < s.length := lt_length_of_matchesAt hpat hm
  rw [pyFind_natCast]
  exact findAux_spec hm _ st hst (by omega) hno

lemma noOccIn_spec {s pat : List Char} {lo hi : Nat} (h : noOccIn s pat lo hi = true) :
    ∀ j, lo ≤ j → j < hi → matchesAt s pat j = false := by
  intro j h1 h2
  rw [noOccIn, List.all_eq_true] at h
  have h3 := h (j - lo) (List.mem_range.mpr (by omega))
  have hj : lo + (j - lo) = j := by omega
  rw [hj] at h3
  simpa using h3

lemma take_of_append {s P R : List Char} {n : Nat} (hs : s = P ++ R) (hn : n = P.length) :
    s.take n = P := by subst hs hn; exact List.take_left P R

lemma drop_of_append {s P R : List Char} {n : Nat} (hs : s = P ++ R) (hn : n = P.length) :
    s.drop n = R := by subst hs hn; exact List.drop_left P R

lemma pyClamp_natCast (len n : Nat) : pyClamp len (n : Int) = n := by
  unfold pyClamp
  rw [if_neg (by omega), Int.toNat_natCast]

lemma pySliceTo_natCast (s : List Char) (n : Nat) : pySliceTo s (n : Int) = s.take n := by
  unfold pySliceTo; rw [pyClamp_natCast]

lemma pySliceFrom_natCast (s : List Char) (n : Nat) : pySliceFrom s (n : Int) = s.drop n := by
  unfold pySliceFrom; rw [pyClamp_natCast]

lemma intRange_natCast (a b : Nat) : intRange (a : Int) b = intRangeAux (a : Int) (b - a) := by
  unfold intRange
  congr 1
  omega

lemma pyCharAt_natCast {s : List Char} {j : Nat} (hj : j < s.length) :
    pyCharAt s (j : Int) = s[j] := by
  unfold pyCharAt
  rw [if_neg (by omega), Int.toNat_natCast, List.getD_eq_getElem?_getD,
    List.getElem?_eq_getElem hj]
  rfl

lemma bracketScanAux_eq_natScan (s : List Char) :
    ∀ (m j : Nat) (count : Int), m = s.length - j →
      bracketScanAux s count (intRangeAux (j : Int) m) = natBracketScan j count (s.drop j) := by
  intro m
  induction m with
  | zero =>
    intro j count hm
    rw [List.drop_eq_nil_of_le (by omega)]
    rfl
  | succ n ih =>
    intro j count hm
    have hj : j < s.length := by omega
    have hcast : ((j : Int) + 1) = ((j + 1 : Nat) : Int) := by push_cast; ring
    rw [List.drop_eq_getElem_cons hj]
    show bracketScanAux s count ((j : Int) :: intRangeAux ((j : Int) + 1) n) = _
    rw [hcast]
    show (if pyCharAt s (j : Int) = '[' then
        bracketScanAux s (count + 1) (intRangeAux ((j + 1 : Nat) : Int) n)
      else if pyCharAt s (j : Int) = ']' then
        if count - 1 = 0 then (j : Int) + 1
        else bracketScanAux s (count - 1) (intRangeAux ((j + 1 : Nat) : Int) n)
      else bracketScanAux s count (intRangeAux ((j + 1 : Nat) : Int) n)) = _
    rw [pyCharAt_natCast hj]
    by_cases h1 : s[j] = '['
    · rw [if_pos h1, ih (j+1) (count+1) (by omega)]
      simp [natBracketScan, h1]
    · rw [if_neg h1]
      by_cases h2 : s[j] = ']'
      · rw [if_pos h2]
        by_cases h3 : count - 1 = 0
        · rw [if_pos h3]
          simp [natBracketScan, h1, h2, h3]
        · rw [if_neg h3, ih (j+1) (count-1) (by omega)]
          simp [natBracketScan, h1, h2, h3]
      · rw [if_neg h2, ih (j+1) count (by omega)]
        simp [natBracketScan, h1, h2]

lemma bracketScan_natCast (s : List Char) (a : Nat) :
    bracketScan s (a : Int) = natBracketScan a 0 (s.drop a) := by
  unfold bracketScan
  rw [intRange_natCast]
  exact bracketScanAux_eq_natScan s (s.length - a) a 0 rfl

lemma braceScanAux_eq_natScan (s : List Char) :
    ∀ (m j : Nat) (count : Int), m = s.length - j →
      braceScanAux s count (intRangeAux (j : Int) m) = natBraceScan j count (s.drop j) := by
  intro m
  induction m with
  | zero =>
    intro j count hm
    rw [List.drop_eq_nil_of_le (by omega)]
    rfl
  | succ n ih =>
    intro j count hm
    have hj : j < s.length := by omega
    have hcast : ((j : Int) + 1) = ((j + 1 : Nat) : Int) := by push_cast; ring
    rw [List.drop_eq_getElem_cons hj]
    show braceScanAux s count ((j : Int) :: intRangeAux ((j : Int) + 1) n) = _
    rw [hcast]
    show (if pyCharAt s (j : Int) = '\x7b' then
        braceScanAux s (count + 1) (intRangeAux ((j + 1 : Nat) : Int) n)
      else if pyCharAt s (j : Int) = '\x7d' then
        if count = 0 then (j : Int) + 1
        else braceScanAux s (count - 1) (intRangeAux ((j + 1 : Nat) : Int) n)
      else braceScanAux s count (intRangeAux ((j + 1 : Nat) : Int) n)) = _
    rw [pyCharAt_natCast hj]
    by_cases h1 : s[j] = '\x7b'
    · rw [if_pos h1, ih (j+1) (count+1) (by omega)]
      simp [natBraceScan, h1]
    · rw [if_neg h1]
      by_cases h2 : s[j] = '\x7d'
      · rw [if_pos h2]
        by_cases h3 : count = 0
        · rw [if_pos h3]
          simp [natBraceScan, h1, h2, h3]
        · rw [if_neg h3, ih (j+1) (count-1) (by omega)]
          simp [natBraceScan, h1, h2, h3]
      · rw [if_neg h2, ih (j+1) count (by omega)]
        simp [natBraceScan, h1, h2]

lemma braceScan_natCast (s : List Char) (a : Nat) :
    braceScan s (a : Int) = natBraceScan a 0 (s.drop a) := by
  unfold braceScan
  rw [intRange_natCast]
  exact braceScanAux_eq_natScan s (s.length - a) a 0 rfl

lemma depthDelta_append (oC cC : Char) (x y : List Char) :
    depthDelta oC cC (x ++ y) = depthDelta oC cC x + depthDelta oC cC y := by
  induction x with
  | nil => simp [depthDelta]
  | cons c rest ih =>
    simp only [List.cons_append, depthDelta]
    rw [show rest.append y = rest ++ y from rfl, ih]
    ring

lemma depthDelta_cons (oC cC c : Char) (rest : List Char) :
    depthDelta oC cC (c :: rest)
      = (if c = oC then 1 else if c = cC then -1 else 0) + depthDelta oC cC rest := rfl

lemma depthDelta_cons_open (oC cC : Char) (rest : List Char) :
    depthDelta oC cC (oC :: rest) = 1 + depthDelta oC cC rest := by
  rw [depthDelta_cons, if_pos rfl]

lemma depthDelta_cons_close {oC cC : Char} (h : cC ≠ oC) (rest : List Char) :
    depthDelta oC cC (cC :: rest) = -1 + depthDelta oC cC rest := by
  rw [depthDelta_cons, if_neg h, if_pos rfl]

lemma depthDelta_cons_other {oC cC c : Char} (h1 : c ≠ oC) (h2 : c ≠ cC)
    (rest : List Char) :
    depthDelta oC cC (c :: rest) = depthDelta oC cC rest := by
  rw [depthDelta_cons, if_neg h1, if_neg h2]
  ring

lemma natBracketScan_cons_open (j : Nat) (c0 : Int) (rest : List Char) :
    natBracketScan j c0 ('[' :: rest) = natBracketScan (j+1) (c0+1) rest := by
  simp [natBracketScan]

lemma natBracketScan_cons_close (j : Nat) (c0 : Int) (rest : List Char) :
    natBracketScan j c0 (']' :: rest)
      = if c0 - 1 = 0 then (j : Int) + 1 else natBracketScan (j+1) (c0-1) rest := by
  simp [natBracketScan]

lemma natBracketScan_cons_other {c : Char} (h1 : c ≠ '[') (h2 : c ≠ ']')
    (j : Nat) (c0 : Int) (rest : List Char) :
    natBracketScan j c0 (c :: rest) = natBracketScan (j+1) c0 rest := by
  simp [natBracketScan, h1, h2]

lemma natBraceScan_cons_open (j : Nat) (c0 : Int) (rest : List Char) :
    natBraceScan j c0 ('\x7b' :: rest) = natBraceScan (j+1) (c0+1) rest := by
  simp [natBraceScan]

lemma natBraceScan_cons_close (j : Nat) (c0 : Int) (rest : List Char) :
    natBraceScan j c0 ('\x7d' :: rest)
      = if c0 = 0 then (j : Int) + 1 else natBraceScan (j+1) (c0-1) rest := by
  simp [natBraceScan]

lemma natBraceScan_cons_other {c : Char} (h1 : c ≠ '\x7b') (h2 : c ≠ '\x7d')
    (j : Nat) (c0 : Int) (rest : List Char) :
    natBraceScan j c0 (c :: rest) = natBraceScan (j+1) c0 rest := by
  simp [natBraceScan, h1, h2]

lemma natBracketScan_skip :
    ∀ (body tail : List Char) (j : Nat) (c0 : Int),
      (∀ k, k < body.length → body[k]? = some ']' →
        c0 + depthDelta '[' ']' (body.take k) ≠ 1) →
      natBracketScan j c0 (body ++ tail)
        = natBracketScan (j + body.length) (c0 + depthDelta '[' ']' body) tail := by
  intro body
  induction body with
  | nil => intro tail j c0 _; simp [depthDelta]
  | cons c rest ih =>
    intro tail j c0 hstop
    have e1 : j + (c :: rest).length = j + 1 + rest.length := by
      simp only [List.length_cons]; omega
    by_cases h1 : c = '['
    · subst h1
      have hs : ∀ k, k < rest.length → rest[k]? = some ']' →
          (c0+1) + depthDelta '[' ']' (rest.take k) ≠ 1 := by
        intro k hk hck
        have h := hstop (k+1) (by simp only [List.length_cons]; omega) (by simpa using hck)
        rw [List.take_succ_cons, depthDelta_cons_open] at h
        omega
      rw [List.cons_append, natBracketScan_cons_open, ih tail (j+1) (c0+1) hs]
      have e2 : c0 + depthDelta '[' ']' ('[' :: rest) = c0 + 1 + depthDelta '[' ']' rest := by
        rw [depthDelta_cons_open]
        ring
      rw [e1, e2]
    · by_cases h2 : c = ']'
      · subst h2
        have hc0 : c0 ≠ 1 := by
          have h := hstop 0 (by simp) (by simp)
          simpa [depthDelta] using h
        have hs : ∀ k, k < rest.length → rest[k]? = some ']' →
            (c0-1) + depthDelta '[' ']' (rest.take k) ≠ 1 := by
          intro k hk hck
          have h := hstop (k+1) (by simp only [List.length_cons]; omega) (by simpa using hck)
          rw [List.take_succ_cons, depthDelta_cons_close (by decide)] at h
          omega
        rw [List.cons_append, natBracketScan_cons_close, if_neg (by omega),
          ih tail (j+1) (c0-1) hs]
        have e2 : c0 + depthDelta '[' ']' (']' :: rest) = c0 - 1 + depthDelta '[' ']' rest := by
          rw [depthDelta_cons_close (by decide)]
          ring
        rw [e1, e2]
      · have hs : ∀ k, k < rest.length → rest[k]? = some ']' →
            c0 + depthDelta '[' ']' (rest.take k) ≠ 1 := by
          intro k hk hck
          have h := hstop (k+1) (by simp only [List.length_cons]; omega) (by simpa using hck)
          rw [List.take_succ_cons, depthDelta_cons_other h1 h2] at h
          omega
        rw [List.cons_append, natBracketScan_cons_other h1 h2, ih tail (j+1) c0 hs]
        have e2 : c0 + depthDelta '[' ']' (c :: rest) = c0 + depthDelta '[' ']' rest := by
          rw [depthDelta_cons_other h1 h2]
        rw [e1, e2]

lemma natBraceScan_skip :
    ∀ (body tail : List Char) (j : Nat) (c0 : Int),
      (∀ k, k < body.length → body[k]? = some '\x7d' →
        c0 + depthDelta '\x7b' '\x7d' (body.take k) ≠ 0) →
      natBraceScan j c0 (body ++ tail)
        = natBraceScan (j + body.length) (c0 + depthDelta '\x7b' '\x7d' body) tail := by
  intro body
  induction body with
  | nil => intro tail j c0 _; simp [depthDelta]
  | cons c rest ih =>
    intro tail j c0 hstop
    have e1 : j + (c :: rest).length = j + 1 + rest.length := by
      simp only [List.length_cons]; omega
    by_cases h1 : c = '\x7b'
    · subst h1
      have hs : ∀ k, k < rest.length → rest[k]? = some '\x7d' →
          (c0+1) + depthDelta '\x7b' '\x7d' (rest.take k) ≠ 0 := by
        intro k hk hck
        have h := hstop (k+1) (by simp only [List.length_cons]; omega) (by simpa using hck)
        rw [List.take_succ_cons, depthDelta_cons_open] at h
        omega
      rw [List.cons_append, natBraceScan_cons_open, ih tail (j+1) (c0+1) hs]
      have e2 : c0 + depthDelta '\x7b' '\x7d' ('\x7b' :: rest)
          = c0 + 1 + depthDelta '\x7b' '\x7d' rest := by
        rw [depthDelta_cons_open]
        ring
      rw [e1, e2]
    · by_cases h2 : c = '\x7d'
      · subst h2
        have hc0 : c0 ≠ 0 := by
          have h := hstop 0 (by simp) (by simp)
          simpa [depthDelta] using h
        have hs : ∀ k, k < rest.length → rest[k]? = some '\x7d' →
            (c0-1) + depthDelta '\x7b' '\x7d' (rest.take k) ≠ 0 := by
          intro k hk hck
          have h := hstop (k+1) (by simp only [List.length_cons]; omega) (by simpa using hck)
          rw [List.take_succ_cons, depthDelta_cons_close (by decide)] at h
          omega
        rw [List.cons_append, natBraceScan_cons_close, if_neg hc0,
          ih tail (j+1) (c0-1) hs]
        have e2 : c0 + depthDelta '\x7b' '\x7d' ('\x7d' :: rest)
            = c0 - 1 + depthDelta '\x7b' '\x7d' rest := by
          rw [depthDelta_cons_close (by decide)]
          ring
        rw [e1, e2]
      · have hs : ∀ k, k < rest.length → rest[k]? = some '\x7d' →
            c0 + depthDelta '\x7b' '\x7d' (rest.take k) ≠ 0 := by
          intro k hk hck
          have h := hstop (k+1) (by simp only [List.length_cons]; omega) (by simpa using hck)
          rw [List.take_succ_cons, depthDelta_cons_other h1 h2] at h
          omega
        rw [List.cons_append, natBraceScan_cons_other h1 h2, ih tail (j+1) c0 hs]
        have e2 : c0 + depthDelta '\x7b' '\x7d' (c :: rest)
            = c0 + depthDelta '\x7b' '\x7d' rest := by
          rw [depthDelta_cons_other h1 h2]
        rw [e1, e2]

/-- Helper: a bracket scan started on the opening bracket of a balanced
region stops one past its matching close. -/
lemma bracketScan_found {s : List Char} (pre body post : List Char)
    (hs : s = pre ++ ('[' :: (body ++ ']' :: post))) (hb : bracketBalanced body) :
    bracketScan s (pre.length : Int) = ((pre.length + body.length + 2 : Nat) : Int) := by
  rw [bracketScan_natCast, drop_of_append hs rfl, natBracketScan_cons_open]
  have hstop : ∀ k, k < body.length → body[k]? = some ']' →
      (0 + 1 : Int) + depthDelta '[' ']' (body.take k) ≠ 1 := by
    intro k hk hck
    have h2 := hb.2 k hk
    have ht : body.take (k+1) = body.take k ++ [']'] := by
      rw [List.take_succ, hck]
      rfl
    rw [ht, depthDelta_append] at h2
    rw [show depthDelta '[' ']' [']'] = -1 from by decide] at h2
    omega
  rw [natBracketScan_skip body (']' :: post) (pre.length + 1) (0 + 1) hstop, hb.1,
    natBracketScan_cons_close, if_pos (by omega)]
  push_cast
  ring

/-- Helper: the brace scan started just past the opening brace of an entry
whose interior is brace-balanced stops one past the entry's closing brace. -/
lemma braceScan_found {s : List Char} (pre body post : List Char)
    (hs : s = pre ++ (body ++ '\x7d' :: post)) (hb : braceBalanced body) :
    braceScan s (pre.length : Int) = ((pre.length + body.length + 1 : Nat) : Int) := by
  rw [braceScan_natCast, drop_of_append hs rfl]
  have hstop : ∀ k, k < body.length → body[k]? = some '\x7d' →
      (0 : Int) + depthDelta '\x7b' '\x7d' (body.take k) ≠ 0 := by
    intro k hk hck
    have h2 := hb.2 k hk
    have ht : body.take (k+1) = body.take k ++ ['\x7d'] := by
      rw [List.take_succ, hck]
      rfl
    rw [ht, depthDelta_append] at h2
    rw [show depthDelta '\x7b' '\x7d' ['\x7d'] = -1 from by decide] at h2
    omega
  rw [natBraceScan_skip body ('\x7d' :: post) pre.length 0 hstop, hb.1,
    natBraceScan_cons_close, if_pos (by omega)]
  push_cast
  ring

/-- Helper: closed form of the address replacement on a well-shaped region.
Only the bytes strictly between the field's two quotes change. -/
lemma addressReplace_eq {content : List Char} (P m2 addr R addrNew : List Char) (st : Nat)
    (hc : content = addrDoc P m2 addr R) (h : addrOK P m2 addr R st) :
    addressReplace addrNew content (st : Int) = addrDoc P m2 addrNew R := by
  obtain ⟨h1, h2, h3, h4⟩ := h
  have hm1 : matchesAt content addrMarker P.length = true := by
    rw [hc]; exact matchesAt_of_append
  have hfind1 : pyFind content addrMarker (st : Int) = (P.length : Int) :=
    pyFind_at (by decide) h1 hm1 (fun j ha hb => hc.symm ▸ noOccIn_spec h2 j ha hb)
  have hqS : (P ++ (addrMarker ++ m2)).length = P.length + addrMarker.length + m2.length := by
    simp [List.length_append]
    omega
  have hm2 : matchesAt content ['\"'] (P.length + addrMarker.length + m2.length) = true := by
    have hc2 : content = (P ++ (addrMarker ++ m2)) ++ (['\"'] ++ (addr ++ '\"' :: R)) := by
      rw [hc]
      simp [addrDoc, List.append_assoc]
    rw [hc2, ← hqS]
    exact matchesAt_of_append
  have hfind2 : pyFind content ['\"'] ((P.length : Nat) : Int)
      = ((P.length + addrMarker.length + m2.length : Nat) : Int) :=
    pyFind_at (by decide) (by omega) hm2 (fun j ha hb => hc.symm ▸ noOccIn_spec h3 j ha hb)
  have hcast : (((P.length + addrMarker.length + m2.length : Nat) : Int) + 1)
      = ((P.length + addrMarker.length + m2.length + 1 : Nat) : Int) := by
    push_cast
    ring
  have hqE : (P ++ (addrMarker ++ (m2 ++ ('\"' :: addr)))).length
      = P.length + addrMarker.length + m2.length + 1 + addr.length := by
    simp only [List.length_append, List.length_cons]
    omega
  have hm3 : matchesAt content ['\"'] (P.length + addrMarker.length + m2.length + 1 + addr.length)
      = true := by
    have hc3 : content = (P ++ (addrMarker ++ (m2 ++ ('\"' :: addr)))) ++ (['\"'] ++ R) := by
      rw [hc]
      simp [addrDoc, List.append_assoc]
    rw [hc3, ← hqE]
    exact matchesAt_of_append
  have hfind3 : pyFind content ['\"'] ((P.length + addrMarker.length + m2.length + 1 : Nat) : Int)
      = ((P.length + addrMarker.length + m2.length + 1 + addr.length : Nat) : Int) :=
    pyFind_at (by decide) (by omega) hm3 (fun j ha hb => hc.symm ▸ noOccIn_spec h4 j ha hb)
  have htake : content.take (P.length + addrMarker.length + m2.length + 1)
      = P ++ (addrMarker ++ (m2 ++ ['\"'])) := by
    refine @take_of_append _ _ (addr ++ '\"' :: R) _ ?_ ?_
    · rw [hc]
      simp [addrDoc, List.append_assoc]
    · simp only [List.length_append, List.length_cons, List.length_nil]
      omega
  have hdrop : content.drop (P.length + addrMarker.length + m2.length + 1 + addr.length)
      = '\"' :: R := by
    refine @drop_of_append _ (P ++ (addrMarker ++ (m2 ++ ('\"' :: addr)))) _ _ ?_ ?_
    · rw [hc]
      simp [addrDoc, List.append_assoc]
    · rw [hqE]
  simp only [addressReplace]
  rw [hfind1, hfind2, hcast, hfind3, pySliceTo_natCast, pySliceFrom_natCast, htake, hdrop]
  simp [addrDoc, List.append_assoc]

/-- Helper: closed form of the abi replacement on a well-shaped entry. The
bracket block (brackets included) is replaced by the new payload and
nothing else changes. -/
lemma abiReplace_eq {content : List Char} (Q marker M m4 body R abiNew : List Char)
    (hc : content = abiDoc Q marker M m4 body R) (h : abiOK Q marker M m4 body R) :
    abiReplace marker abiNew content
      = Q ++ (marker ++ (M ++ (abiMarker ++ (m4 ++ (abiNew ++ R))))) := by
  obtain ⟨h1, h2, h3, h4, h5⟩ := h
  have hm1 : matchesAt content marker Q.length = true := by
    rw [hc]; exact matchesAt_of_append
  have hfind1 : pyFind content marker 0 = (Q.length : Int) := by
    have hf := @pyFind_at _ _ 0 _ h1 (by omega) hm1 (fun j ha hb => hc.symm ▸ noOccIn_spec h2 j ha hb)
    simpa using hf
  have hpB : (Q ++ (marker ++ M)).length = Q.length + marker.length + M.length := by
    simp only [List.length_append]
    omega
  have hm2 : matchesAt content abiMarker (Q.length + marker.length + M.length) = true := by
    have hc2 : content = (Q ++ (marker ++ M)) ++ (abiMarker ++ (m4 ++ ('[' :: (body ++ ']' :: R)))) := by
      rw [hc]
      simp [abiDoc, List.append_assoc]
    rw [hc2, ← hpB]
    exact matchesAt_of_append
  have hfind2 : pyFind content abiMarker ((Q.length : Nat) : Int)
      = ((Q.length + marker.length + M.length : Nat) : Int) :=
    pyFind_at (by decide) (by omega) hm2 (fun j ha hb => hc.symm ▸ noOccIn_spec h3 j ha hb)
  have hbS : (Q ++ (marker ++ (M ++ (abiMarker ++ m4)))).length
      = Q.length + marker.length + M.length + abiMarker.length + m4.length := by
    simp only [List.length_append]
    omega
  have hm3 : matchesAt content ['['] (Q.length + marker.length + M.length + abiMarker.length + m4.length)
      = true := by
    have hc3 : content = (Q ++ (marker ++ (M ++ (abiMarker ++ m4)))) ++ (['['] ++ (body ++ ']' :: R)) := by
      rw [hc]
      simp [abiDoc, List.append_assoc]
    rw [hc3, ← hbS]
    exact matchesAt_of_append
  have hfind3 : pyFind content ['['] ((Q.length + marker.length + M.length : Nat) : Int)
      = ((Q.length + marker.length + M.length + abiMarker.length + m4.length : Nat) : Int) :=
    pyFind_at (by decide) (by omega) hm3 (fun j ha hb => hc.symm ▸ noOccIn_spec h4 j ha hb)
  have hscan : bracketScan content
      ((Q.length + marker.length + M.length + abiMarker.length + m4.length : Nat) : Int)
      = ((Q.length + marker.length + M.length + abiMarker.length + m4.length + body.length + 2 : Nat) : Int) := by
    have hc4 : content = (Q ++ (marker ++ (M ++ (abiMarker ++ m4)))) ++ ('[' :: (body ++ ']' :: R)) := by
      rw [hc]
      simp [abiDoc, List.append_assoc]
    have hsc := bracketScan_found (Q ++ (marker ++ (M ++ (abiMarker ++ m4)))) body R hc4 h5
    rw [hbS] at hsc
    exact hsc
  have htake : content.take (Q.length + marker.length + M.length + abiMarker.length + m4.length)
      = Q ++ (marker ++ (M ++ (abiMarker ++ m4))) := by
    refine @take_of_append _ _ ('[' :: (body ++ ']' :: R)) _ ?_ ?_
    · rw [hc]
      simp [abiDoc, List.append_assoc]
    · rw [hbS]
  have hdrop : content.drop (Q.length + marker.length + M.length + abiMarker.length + m4.length + body.length + 2)
      = R := by
    refine @drop_of_append _ (Q ++ (marker ++ (M ++ (abiMarker ++ (m4 ++ ('[' :: (body ++ [']']))))))) _ _ ?_ ?_
    · rw [hc]
      simp [abiDoc, List.append_assoc]
    · simp only [List.length_append, List.length_cons, List.length_nil]
      omega
  simp only [abiReplace]
  rw [hfind1, hfind2, hfind3, hscan, if_neg (by omega), pySliceTo_natCast, pySliceFrom_natCast]
  rw [htake, hdrop]
  simp [List.append_assoc]

/-- Helper: the found-path composite (address replace, then abi replace) on
a well-formed entry finds the anchor at pre.length and produces the entry
with exactly the two spans replaced. -/
lemma entry_step_eq (marker addrNew abiNew pre m1 m2 addr m3 m4 body post : List Char)
    (h : entryOK marker addrNew pre m1 m2 addr m3 m4 body post) :
    pyFind (entryDoc pre marker m1 m2 addr m3 m4 body post) marker 0 = (pre.length : Int) ∧
    abiReplace marker abiNew
      (addressReplace addrNew (entryDoc pre marker m1 m2 addr m3 m4 body post) (pre.length : Int))
      = entryFinal pre marker m1 m2 addrNew m3 m4 abiNew post := by
  obtain ⟨hm, hocc, haddr, habi⟩ := h
  have hmm : matchesAt (entryDoc pre marker m1 m2 addr m3 m4 body post) marker pre.length
      = true := by
    unfold entryDoc
    exact matchesAt_of_append
  constructor
  · have hf := @pyFind_at _ _ 0 _ hm (Nat.zero_le _) hmm
      (fun j ha hb => noOccIn_spec hocc j ha hb)
    simpa using hf
  · have hc1 : entryDoc pre marker m1 m2 addr m3 m4 body post
        = addrDoc (pre ++ (marker ++ m1)) m2 addr
            (m3 ++ (abiMarker ++ (m4 ++ ('[' :: (body ++ ']' :: post))))) := by
      simp [entryDoc, addrDoc, List.append_assoc]
    rw [addressReplace_eq _ _ _ _ addrNew pre.length hc1 haddr]
    have hc2 : addrDoc (pre ++ (marker ++ m1)) m2 addrNew
          (m3 ++ (abiMarker ++ (m4 ++ ('[' :: (body ++ ']' :: post)))))
        = abiDoc pre marker
            (m1 ++ (addrMarker ++ (m2 ++ ('\"' :: (addrNew ++ ('\"' :: m3))))))
            m4 body post := by
      simp [addrDoc, abiDoc, List.append_assoc]
    rw [abiReplace_eq _ _ _ _ _ _ abiNew hc2 habi]
    simp [entryFinal, List.append_assoc]

/-- Helper: closed form of step 1 on a document whose AgentNFA entry is
well formed; the abi_marker flag comes back set. -/
lemma step_AgentNFA_eq (a pre m1 m2 addr m3 m4 body post : List Char)
    (h : entryOK agentMarker AGENT_NFA_ADDRESS pre m1 m2 addr m3 m4 body post) :
    step_AgentNFA a (entryDoc pre agentMarker m1 m2 addr m3 m4 body post)
      = (entryFinal pre agentMarker m1 m2 AGENT_NFA_ADDRESS m3 m4 a post, true) := by
  obtain ⟨h1, h2⟩ := entry_step_eq agentMarker AGENT_NFA_ADDRESS a pre m1 m2 addr m3 m4 body post h
  unfold step_AgentNFA
  rw [h1, if_neg (by omega), h2]

/-- Helper: closed form of step 2 with the abi_marker flag set on a
document whose ListingManager entry is well formed. -/
lemma step_ListingManager_eq (l pre m1 m2 addr m3 m4 body post : List Char)
    (h : entryOK listingMarker LISTING_MANAGER_ADDRESS pre m1 m2 addr m3 m4 body post) :
    step_ListingManager l true (entryDoc pre listingMarker m1 m2 addr m3 m4 body post)
      = .ok (entryFinal pre listingMarker m1 m2 LISTING_MANAGER_ADDRESS m3 m4 l post) := by
  obtain ⟨h1, h2⟩ := entry_step_eq listingMarker LISTING_MANAGER_ADDRESS l pre m1 m2 addr m3 m4 body post h
  unfold step_ListingManager
  rw [h1, if_neg (by omega), if_pos rfl, h2]

/-- Helper: closed form of step 3 when the PolicyGuard anchor is present —
only the address literal changes; the rest, the abi block included, is
byte-for-byte preserved. -/
lemma step_PolicyGuard_found (p pre m1 m2 addr post : List Char)
    (h : pgOK pre m1 m2 addr post) :
    step_PolicyGuard p (pgDoc pre m1 m2 addr post)
      = pgDoc pre m1 m2 POLICY_GUARD_ADDRESS post := by
  obtain ⟨h1, h2⟩ := h
  have hmm : matchesAt (pgDoc pre m1 m2 addr post) policyMarker pre.length = true := by
    unfold pgDoc
    exact matchesAt_of_append
  have hfind : pyFind (pgDoc pre m1 m2 addr post) policyMarker 0 = (pre.length : Int) := by
    have hf := @pyFind_at _ _ 0 _ (by decide) (Nat.zero_le _) hmm
      (fun j ha hb => noOccIn_spec h1 j ha hb)
    simpa using hf
  unfold step_PolicyGuard
  rw [hfind, if_neg (by omega)]
  have hc1 : pgDoc pre m1 m2 addr post
      = addrDoc (pre ++ (policyMarker ++ m1)) m2 addr post := by
    simp [pgDoc, addrDoc, List.append_assoc]
  rw [addressReplace_eq _ _ _ _ POLICY_GUARD_ADDRESS pre.length hc1 h2]
  simp [pgDoc, addrDoc, List.append_assoc]

/-- Helper: closed form of the insert path — the synthesized block is
spliced immediately after the ListingManager entry's closing brace and
every existing byte is preserved. -/
lemma insertPolicyGuard_eq (p pre body post : List Char) (h : insertOK pre body post) :
    insertPolicyGuard p (lmDoc pre body post)
      = pre ++ (listingMarker ++ (body ++ ('\x7d' :: (policyGuardStr p ++ post)))) := by
  obtain ⟨h1, h2⟩ := h
  have hmm : matchesAt (lmDoc pre body post) listingMarker pre.length = true := by
    unfold lmDoc
    exact matchesAt_of_append
  have hfind : pyFind (lmDoc pre body post) listingMarker 0 = (pre.length : Int) := by
    have hf := @pyFind_at _ _ 0 _ (by decide) (Nat.zero_le _) hmm
      (fun j ha hb => noOccIn_spec h1 j ha hb)
    simpa using hf
  have hcast : ((pre.length : Int) + (listingMarker.length : Int))
      = ((pre.length + listingMarker.length : Nat) : Int) := by
    push_cast
    ring
  have hsplit : lmDoc pre body post = (pre ++ listingMarker) ++ (body ++ '\x7d' :: post) := by
    simp [lmDoc, List.append_assoc]
  have hscan : braceScan (lmDoc pre body post) ((pre.length + listingMarker.length : Nat) : Int)
      = ((pre.length + listingMarker.length + body.length + 1 : Nat) : Int) := by
    have hsc := braceScan_found (pre ++ listingMarker) body post hsplit h2
    rw [List.length_append] at hsc
    exact hsc
  have htake : (lmDoc pre body post).take (pre.length + listingMarker.length + body.length + 1)
      = pre ++ (listingMarker ++ (body ++ ['\x7d'])) := by
    refine @take_of_append _ _ post _ ?_ ?_
    · simp [lmDoc, List.append_assoc]
    · simp only [List.length_append, List.length_cons, List.length_nil]
      omega
  have hdrop : (lmDoc pre body post).drop (pre.length + listingMarker.length + body.length + 1)
      = post := by
    refine @drop_of_append _ (pre ++ (listingMarker ++ (body ++ ['\x7d']))) _ _ ?_ ?_
    · simp [lmDoc, List.append_assoc]
    · simp only [List.length_append, List.length_cons, List.length_nil]
      omega
  unfold insertPolicyGuard
  rw [hfind, if_neg (by omega), hcast, hscan, if_neg (by omega),
    pySliceTo_natCast, pySliceFrom_natCast, htake, hdrop]
  simp [List.append_assoc]

/-- C2: applying the fixed set of update requests twice yields a document
byte-identical to applying it once. On a document with well-formed
AgentNFA, ListingManager and PolicyGuard entries (the defining equations
name the intermediate buffers; the OK bundles say each anchor search hits
the entry's own fields on both passes, and the new payloads are themselves
balanced bracket blocks), the second run finds every entry with the
already-updated values and each replacement writes back the same bytes. -/
theorem claim_C2
    (a l p abody lbody p0 a1 a2 addrA a3 a4 bodyA a5 b1 b2 addrB b3 b4 bodyB b5
      c1 c2 addrC post postB0 postA preB preC postB2 postA2 : List Char)
    (ha : a = '[' :: (abody ++ [']']))
    (hl : l = '[' :: (lbody ++ [']']))
    (hpostB0 : postB0 = b5 ++ (policyMarker ++ (c1 ++ (addrMarker ++
      (c2 ++ ('\"' :: (addrC ++ '\"' :: post)))))))
    (hpostA : postA = a5 ++ (listingMarker ++ (b1 ++ (addrMarker ++ (b2 ++
      ('\"' :: (addrB ++ ('\"' :: (b3 ++ (abiMarker ++ (b4 ++
      ('[' :: (bodyB ++ ']' :: postB0)))))))))))))
    (hpreB : preB = p0 ++ (agentMarker ++ (a1 ++ (addrMarker ++ (a2 ++
      ('\"' :: (AGENT_NFA_ADDRESS ++ ('\"' :: (a3 ++ (abiMarker ++ (a4 ++
      (a ++ a5))))))))))))
    (hpreC : preC = preB ++ (listingMarker ++ (b1 ++ (addrMarker ++ (b2 ++
      ('\"' :: (LISTING_MANAGER_ADDRESS ++ ('\"' :: (b3 ++ (abiMarker ++ (b4 ++
      (l ++ b5))))))))))))
    (hpostB2 : postB2 = b5 ++ (policyMarker ++ (c1 ++ (addrMarker ++ (c2 ++
      ('\"' :: (POLICY_GUARD_ADDRESS ++ '\"' :: post)))))))
    (hpostA2 : postA2 = a5 ++ (listingMarker ++ (b1 ++ (addrMarker ++ (b2 ++
      ('\"' :: (LISTING_MANAGER_ADDRESS ++ ('\"' :: (b3 ++ (abiMarker ++ (b4 ++
      (l ++ postB2))))))))))))
    (h1 : entryOK agentMarker AGENT_NFA_ADDRESS p0 a1 a2 addrA a3 a4 bodyA postA)
    (h2 : entryOK listingMarker LISTING_MANAGER_ADDRESS preB b1 b2 addrB b3 b4 bodyB postB0)
    (h3 : pgOK preC c1 c2 addrC post)
    (h4 : entryOK agentMarker AGENT_NFA_ADDRESS p0 a1 a2 AGENT_NFA_ADDRESS a3 a4 abody postA2)
    (h5 : entryOK listingMarker LISTING_MANAGER_ADDRESS preB b1 b2 LISTING_MANAGER_ADDRESS b3 b4 lbody postB2)
    (h6 : pgOK preC c1 c2 POLICY_GUARD_ADDRESS post) :
    (update_contracts a l p (entryDoc p0 agentMarker a1 a2 addrA a3 a4 bodyA postA)
        >>= update_contracts a l p)
      = update_contracts a l p (entryDoc p0 agentMarker a1 a2 addrA a3 a4 bodyA postA) := by
  have e1 : entryFinal p0 agentMarker a1 a2 AGENT_NFA_ADDRESS a3 a4 a postA
      = entryDoc preB listingMarker b1 b2 addrB b3 b4 bodyB postB0 := by
    subst hpostA hpostB0 hpreB
    simp [entryDoc, entryFinal, List.append_assoc]
  have e2 : entryFinal preB listingMarker b1 b2 LISTING_MANAGER_ADDRESS b3 b4 l postB0
      = pgDoc preC c1 c2 addrC post := by
    subst hpostB0 hpreC
    simp [entryFinal, pgDoc, List.append_assoc]
  have e3 : pgDoc preC c1 c2 POLICY_GUARD_ADDRESS post
      = entryDoc p0 agentMarker a1 a2 AGENT_NFA_ADDRESS a3 a4 abody postA2 := by
    subst hpreC hpreB hpostA2 hpostB2
    simp [pgDoc, entryDoc, ha, hl, List.append_assoc]
  have e4 : entryFinal p0 agentMarker a1 a2 AGENT_NFA_ADDRESS a3 a4 a postA2
      = entryDoc preB listingMarker b1 b2 LISTING_MANAGER_ADDRESS b3 b4 lbody postB2 := by
    subst hpostA2 hpreB
    simp [entryFinal, entryDoc, hl, List.append_assoc]
  have e5 : entryFinal preB listingMarker b1 b2 LISTING_MANAGER_ADDRESS b3 b4 l postB2
      = pgDoc preC c1 c2 POLICY_GUARD_ADDRESS post := by
    subst hpostB2 hpreC
    simp [entryFinal, pgDoc, List.append_assoc]
  have run1 : update_contracts a l p (entryDoc p0 agentMarker a1 a2 addrA a3 a4 bodyA postA)
      = .ok (pgDoc preC c1 c2 POLICY_GUARD_ADDRESS post) := by
    unfold update_contracts
    rw [step_AgentNFA_eq a p0 a1 a2 addrA a3 a4 bodyA postA h1]
    dsimp only
    rw [e1, step_ListingManager_eq l preB b1 b2 addrB b3 b4 bodyB postB0 h2]
    dsimp only
    rw [e2, step_PolicyGuard_found p preC c1 c2 addrC post h3]
  have run2 : update_contracts a l p (pgDoc preC c1 c2 POLICY_GUARD_ADDRESS post)
      = .ok (pgDoc preC c1 c2 POLICY_GUARD_ADDRESS post) := by
    rw [e3]
    unfold update_contracts
    rw [step_AgentNFA_eq a p0 a1 a2 AGENT_NFA_ADDRESS a3 a4 abody postA2 h4]
    dsimp only
    rw [e4, step_ListingManager_eq l preB b1 b2 LISTING_MANAGER_ADDRESS b3 b4 lbody postB2 h5]
    dsimp only
    rw [e5, step_PolicyGuard_found p preC c1 c2 POLICY_GUARD_ADDRESS post h6]
    exact congrArg Except.ok e3
  rw [run1]
  show update_contracts a l p (pgDoc preC c1 c2 POLICY_GUARD_ADDRESS post) = _
  rw [run2]

/-- C1: for a document containing a well-formed entry for the requested
name (anchor, an address field with a quoted literal, an abi field with a
balanced bracket block), the found-path update — address replace at the
found anchor, then payload replace — substitutes the new address strictly
between the quotes and the new payload for the bracket block, and every
byte outside those two replaced spans is unchanged: the result is the same
concatenation with only those two pieces swapped. -/
theorem claim_C1 (marker addrNew abiNew pre m1 m2 addr m3 m4 body post : List Char)
    (h : entryOK marker addrNew pre m1 m2 addr m3 m4 body post) :
    abiReplace marker abiNew
      (addressReplace addrNew (entryDoc pre marker m1 m2 addr m3 m4 body post)
        (pyFind (entryDoc pre marker m1 m2 addr m3 m4 body post) marker 0))
      = entryFinal pre marker m1 m2 addrNew m3 m4 abiNew post := by
  obtain ⟨hf, he⟩ := entry_step_eq marker addrNew abiNew pre m1 m2 addr m3 m4 body post h
  rw [hf]
  exact he

/-- C1 witness: the end-to-end scenario from the spec, Foo with address
0xAAA and payload [1,2,3] updated to 0xBBB and [4,5,6,7]. -/
theorem claim_C1_witness :
    entryOK "Foo: \x7b".toList "0xBBB".toList [] " ".toList " ".toList "0xAAA".toList
      ", ".toList " ".toList "1,2,3".toList " \x7d".toList ∧
    abiReplace "Foo: \x7b".toList "[4,5,6,7]".toList
      (addressReplace "0xBBB".toList
        (entryDoc [] "Foo: \x7b".toList " ".toList " ".toList "0xAAA".toList ", ".toList
          " ".toList "1,2,3".toList " \x7d".toList)
        (pyFind (entryDoc [] "Foo: \x7b".toList " ".toList " ".toList "0xAAA".toList ", ".toList
          " ".toList "1,2,3".toList " \x7d".toList) "Foo: \x7b".toList 0))
      = entryFinal [] "Foo: \x7b".toList " ".toList " ".toList "0xBBB".toList ", ".toList
          " ".toList "[4,5,6,7]".toList " \x7d".toList :=
  ⟨by decide, claim_C1 "Foo: \x7b".toList "0xBBB".toList "[4,5,6,7]".toList [] " ".toList
    " ".toList "0xAAA".toList ", ".toList " ".toList "1,2,3".toList " \x7d".toList (by decide)⟩

/-- C3: started at an offset holding the opening delimiter of a balanced
region, the delimiter scan (depth counter from 0, incremented on the open
character, decremented on the close) returns the offset one past the
outermost matching close and never stops at an inner close. -/
theorem claim_C3 (pre body post : List Char) (hb : bracketBalanced body) :
    bracketScan (pre ++ ('[' :: (body ++ ']' :: post))) (pre.length : Int)
      = ((pre.length + body.length + 2 : Nat) : Int) :=
  bracketScan_found pre body post rfl hb

/-- C3 witness: the spec's nested payload scans to one past the final
close bracket (offset 24 on a 24-character payload). -/
theorem claim_C3_witness :
    bracketBalanced " \x7b\"a\":[1,2]\x7d, \x7b\"b\":3\x7d ".toList ∧
    bracketScan (([] : List Char) ++ ('[' ::
        (" \x7b\"a\":[1,2]\x7d, \x7b\"b\":3\x7d ".toList ++ ']' :: ([] : List Char))))
        ((([] : List Char).length : Nat) : Int)
      = ((([] : List Char).length + " \x7b\"a\":[1,2]\x7d, \x7b\"b\":3\x7d ".toList.length + 2 : Nat) : Int) :=
  ⟨by decide, claim_C3 [] " \x7b\"a\":[1,2]\x7d, \x7b\"b\":3\x7d ".toList [] (by decide)⟩

/-- C4 counterexample: a document whose PolicyGuard anchor is found keeps
its abi block unchanged — the run output still carries the old payload
[1,2] and differs from the document the claim predicts (payload replaced
by the requested [7]). -/
theorem claim_C4_counterexample :
    update_contracts "[9]".toList "[8]".toList "[7]".toList
      "X PolicyGuard: \x7b address: \"old\", abi: [1,2] \x7d Y".toList
      = .ok "X PolicyGuard: \x7b address: \"0xf087B0e4e829109603533FA3c81BAe101e46934b\", abi: [1,2] \x7d Y".toList ∧
    "X PolicyGuard: \x7b address: \"0xf087B0e4e829109603533FA3c81BAe101e46934b\", abi: [1,2] \x7d Y".toList
      ≠ "X PolicyGuard: \x7b address: \"0xf087B0e4e829109603533FA3c81BAe101e46934b\", abi: [7] \x7d Y".toList :=
  ⟨rfl, by decide⟩

/-- C4 amended: when the AgentNFA or ListingManager anchor is not found the
request is silently skipped (document unchanged, no insert path); when the
PolicyGuard anchor is found only its address literal is replaced and its
payload block is untouched; the insert path is taken only for the
PolicyGuard request, when its anchor is absent. -/
theorem claim_C4 (dA dL dP agent_abi listing_abi policy_abi pre m1 m2 addr post : List Char)
    (hA : pyFind dA agentMarker 0 = -1)
    (hL : pyFind dL listingMarker 0 = -1)
    (hP : pgOK pre m1 m2 addr post)
    (hI : pyFind dP policyMarker 0 = -1) :
    step_AgentNFA agent_abi dA = (dA, false) ∧
    (∀ b : Bool, step_ListingManager listing_abi b dL = .ok dL) ∧
    step_PolicyGuard policy_abi (pgDoc pre m1 m2 addr post)
      = pgDoc pre m1 m2 POLICY_GUARD_ADDRESS post ∧
    step_PolicyGuard policy_abi dP = insertPolicyGuard policy_abi dP := by
  refine ⟨?_, ?_, ?_, ?_⟩
  · unfold step_AgentNFA
    rw [hA, if_pos rfl]
  · intro b
    unfold step_ListingManager
    rw [hL, if_pos rfl]
  · exact step_PolicyGuard_found policy_abi pre m1 m2 addr post hP
  · unfold step_PolicyGuard
    rw [hI, if_pos rfl]

/-- C4 witness: concrete instances of all four amended branches. -/
theorem claim_C4_witness :
    step_AgentNFA "[9]".toList "plain text".toList = ("plain text".toList, false) ∧
    step_ListingManager "[8]".toList false "plain text".toList = .ok "plain text".toList ∧
    step_PolicyGuard "[7]".toList
      (pgDoc "Z ".toList " ".toList " ".toList "0xOLD".toList ", abi: [1] \x7d".toList)
      = pgDoc "Z ".toList " ".toList " ".toList POLICY_GUARD_ADDRESS ", abi: [1] \x7d".toList ∧
    step_PolicyGuard "[7]".toList "plain text".toList
      = insertPolicyGuard "[7]".toList "plain text".toList := by
  obtain ⟨w1, w2, w3, w4⟩ := claim_C4 "plain text".toList "plain text".toList "plain text".toList
    "[9]".toList "[8]".toList "[7]".toList
    "Z ".toList " ".toList " ".toList "0xOLD".toList ", abi: [1] \x7d".toList
    (by decide) (by decide) (by decide) (by decide)
  exact ⟨w1, w2 false, w3, w4⟩

/-- C5: when the PolicyGuard anchor is absent, a new block carrying the
requested name, address and payload, with a leading separator, is spliced
immediately after the closing brace of the ListingManager entry (found by
the brace scan from its opening anchor), and every existing byte is
preserved. -/
theorem claim_C5 (p pre body post : List Char)
    (hpg : pyFind (lmDoc pre body post) policyMarker 0 = -1)
    (h : insertOK pre body post) :
    step_PolicyGuard p (lmDoc pre body post)
      = pre ++ (listingMarker ++ (body ++ ('\x7d' :: (policyGuardStr p ++ post)))) := by
  unfold step_PolicyGuard
  rw [hpg, if_pos rfl]
  exact insertPolicyGuard_eq p pre body post h

/-- C5 witness: insertion after a ListingManager entry with a nested brace
block in its interior. -/
theorem claim_C5_witness :
    pyFind (lmDoc "A ".toList " x: \x7b 1 \x7d, y: 2 ".toList ",\nEND".toList) policyMarker 0 = -1 ∧
    insertOK "A ".toList " x: \x7b 1 \x7d, y: 2 ".toList ",\nEND".toList ∧
    step_PolicyGuard "[5]".toList (lmDoc "A ".toList " x: \x7b 1 \x7d, y: 2 ".toList ",\nEND".toList)
      = "A ".toList ++ (listingMarker ++ (" x: \x7b 1 \x7d, y: 2 ".toList
          ++ ('\x7d' :: (policyGuardStr "[5]".toList ++ ",\nEND".toList)))) :=
  ⟨by decide, by decide,
    claim_C5 "[5]".toList "A ".toList " x: \x7b 1 \x7d, y: 2 ".toList ",\nEND".toList
      (by decide) (by decide)⟩

/-- C6 evaluated at the failing input: the abi bracket block never closes,
the delimiter scan exhausts the buffer and returns -1, yet the run
completes normally and returns a buffer to be written (with the payload
replacement silently skipped) instead of aborting without writing. -/
theorem claim_C6 :
    update_contracts "[9]".toList "[8]".toList "[7]".toList
      "AgentNFA: \x7b address: \"a\", abi: [1, 2 \x7d".toList
      = .ok "AgentNFA: \x7b address: \"0xb65ca34b1526c926c75129ef934c3ba9fe6f29f6\", abi: [1, 2 \x7d".toList ∧
    bracketScan "AgentNFA: \x7b address: \"a\", abi: [1, 2 \x7d".toList
      (pyFind "AgentNFA: \x7b address: \"a\", abi: [1, 2 \x7d".toList ['['] 0) = -1 :=
  ⟨rfl, by decide⟩

/-- C7 amended: the payload-anchor search proceeds from the entry-start
offset re-derived by a fresh forward search for the name anchor in the
edited buffer (the line-38/64 refind), i.e. the source's abi replacement
coincides with the spec-variant evaluated at the refound offset, for every
input. -/
theorem claim_C7 (marker abiNew content : List Char) :
    abiReplace marker abiNew content
      = abiReplaceOrigStart abiNew content (pyFind content marker 0) := rfl

/-- C7 counterexample: an input on which the original entry-start offset
(13) and the refound offset differ after the address edit, and the code's
result differs from the behavior the claim asserts (searching from the
original offset would replace the first abi block; the code replaces the
second). -/
theorem claim_C7_counterexample :
    pyFind "\" abi: [1,1] AgentNFA: \x7bx abi: [2,2]".toList agentMarker 0 = 13 ∧
    abiReplace agentMarker "[9]".toList
      (addressReplace AGENT_NFA_ADDRESS "\" abi: [1,1] AgentNFA: \x7bx abi: [2,2]".toList 13)
      ≠ abiReplaceOrigStart "[9]".toList
          (addressReplace AGENT_NFA_ADDRESS "\" abi: [1,1] AgentNFA: \x7bx abi: [2,2]".toList 13) 13 :=
  ⟨by decide, by decide⟩

/-- C8 counterexample: for a fallback entry containing a nested object
literal, the end-of-entry brace scan does not stop before the entry's
true end: on this entry it returns offset 34, one past the entry's outer
closing brace (only the trailing comma follows), not the inner one. -/
theorem claim_C8_counterexample :
    braceScan "ListingManager: \x7b a: \x7b 1 \x7d, b: 2 \x7d,".toList 17 = 34 ∧
    "ListingManager: \x7b a: \x7b 1 \x7d, b: 2 \x7d,".toList.drop 34 = ",".toList ∧
    "ListingManager: \x7b a: \x7b 1 \x7d, b: 2 \x7d,".toList.take 34
      = "ListingManager: \x7b a: \x7b 1 \x7d, b: 2 \x7d".toList := by
  refine ⟨by decide, by decide, by decide⟩

/-- C8 amended: the end-of-entry brace scan does guard nested object
literals — it increments on an open brace and decrements through matched
close braces — so on any entry whose interior is brace-balanced (nested
braces included) it stops exactly one past the entry's true closing
brace. -/
theorem claim_C8 (pre body post : List Char) (hb : braceBalanced body) :
    braceScan (pre ++ (listingMarker ++ (body ++ '\x7d' :: post)))
        ((pre.length + listingMarker.length : Nat) : Int)
      = ((pre.length + listingMarker.length + body.length + 1 : Nat) : Int) := by
  have hsplit : pre ++ (listingMarker ++ (body ++ '\x7d' :: post))
      = (pre ++ listingMarker) ++ (body ++ '\x7d' :: post) := by
    simp [List.append_assoc]
  have h := braceScan_found (pre ++ listingMarker) body post hsplit hb
  rw [List.length_append] at h
  exact h

/-- C8 witness: an interior with a nested brace pair scans to one past the
outer closing brace. -/
theorem claim_C8_witness :
    braceBalanced " a: \x7b 1 \x7d, b: 2 ".toList ∧
    braceScan (([] : List Char) ++ (listingMarker ++
        (" a: \x7b 1 \x7d, b: 2 ".toList ++ '\x7d' :: ",".toList)))
        ((([] : List Char).length + listingMarker.length : Nat) : Int)
      = ((([] : List Char).length + listingMarker.length
          + " a: \x7b 1 \x7d, b: 2 ".toList.length + 1 : Nat) : Int) :=
  ⟨by decide, claim_C8 [] " a: \x7b 1 \x7d, b: 2 ".toList ",".toList (by decide)⟩

/-- C9 evaluated at the failing input: the ListingManager entry's closing
brace is already followed by a comma; the insert path splices the
PolicyGuard block (which itself starts and ends with a comma separator)
without the comma check its own comment promises, so the output contains
the doubled separator brace-comma-newline-comma and is no longer
structurally valid. -/
theorem claim_C9 :
    update_contracts "[9]".toList "[8]".toList "[7]".toList
      "AgentNFA: \x7b address: \"0xA\", abi: [1] \x7d,\n  ListingManager: \x7b address: \"0xB\", abi: [2] \x7d,\n\x7d;".toList
      = .ok "AgentNFA: \x7b address: \"0xb65ca34b1526c926c75129ef934c3ba9fe6f29f6\", abi: [9] \x7d,\n  ListingManager: \x7b address: \"0x71597c159007E9FF35bcF47822913cA78B182156\", abi: [8] \x7d,\n  PolicyGuard: \x7b\n    address: \"0xf087B0e4e829109603533FA3c81BAe101e46934b\" as Address,\n    abi: [7] as const,\n  \x7d,\n,\n\x7d;".toList ∧
    pyFind "AgentNFA: \x7b address: \"0xb65ca34b1526c926c75129ef934c3ba9fe6f29f6\", abi: [9] \x7d,\n  ListingManager: \x7b address: \"0x71597c159007E9FF35bcF47822913cA78B182156\", abi: [8] \x7d,\n  PolicyGuard: \x7b\n    address: \"0xf087B0e4e829109603533FA3c81BAe101e46934b\" as Address,\n    abi: [7] as const,\n  \x7d,\n,\n\x7d;".toList ",\n,".toList 0 ≠ -1 :=
  ⟨rfl, by decide⟩

/-- C2 witness: applying the three requests twice to a concrete
three-entry registry document equals applying them once. -/
theorem claim_C2_witness :
    (update_contracts "[3]".toList "[4]".toList "[5]".toList c2wDoc
        >>= update_contracts "[3]".toList "[4]".toList "[5]".toList)
      = update_contracts "[3]".toList "[4]".toList "[5]".toList c2wDoc :=
  claim_C2 "[3]".toList "[4]".toList "[5]".toList "3".toList "4".toList
    "C = \x7b ".toList " ".toList " ".toList "0xA".toList ", ".toList " ".toList "1".toList
    " \x7d,\n  ".toList " ".toList " ".toList "0xB".toList ", ".toList " ".toList "2".toList
    " \x7d,\n  ".toList " ".toList " ".toList "0xC".toList " \x7d \x7d;".toList
    c2wPostB0 c2wPostA c2wPreB c2wPreC c2wPostB2 c2wPostA2
    (by decide) (by decide) rfl rfl rfl rfl rfl rfl
    (by decide) (by decide) (by decide) (by decide) (by decide) (by decide)

/-- C10: on a document without the AgentNFA anchor but with a
ListingManager entry, the abi_marker variable is read before ever being
assigned (its only assignment is in the AgentNFA found branch), so the run
fails with an unbound-variable NameError instead of completing. -/
theorem claim_C10 :
    update_contracts "[9]".toList "[8]".toList "[7]".toList
      "ListingManager: \x7b address: \"0x1\", abi: [1] \x7d".toList
      = .error "NameError: name abi_marker is not defined" ∧
    pyFind "ListingManager: \x7b address: \"0x1\", abi: [1] \x7d".toList agentMarker 0 = -1 :=
  ⟨rfl, by decide⟩

end UpdateContracts
